import Mathlib

/-!
Verification of the outage-event aggregation engine.

Shallow embedding of the event-aggregation service:
- `src/app/src/service/dataProcess.service.js` (cache probe, store probe,
  create, merge, cache refresh),
- `src/app/src/repository/outageGroup.repository.js` and
  `src/app/src/repository/outageItem.repository.js` (store operations),
- `src/app/src/service/outageQuery.service.js` (read side).

Instants are modelled as integers in milliseconds (JavaScript `Date.getTime()`
values); inbound event timestamps are integers in seconds, converted with
`* 1000` exactly where the source does.  Store ids are integers
(`BIGINT AUTO_INCREMENT`); values flowing through JavaScript objects may be
either the numeric id or its decimal-string rendering (`id.toString()` /
JSON round trips), which is captured by `JsVal`: every string id that can
occur in the system is the decimal rendering of a store id, so the string
constructor carries its numeric origin.

Fallible I/O (store writes, cache reads/writes) is modelled with an
injectable fault record `Faults`; `prisma.$transaction` rollback is modelled
by returning the pre-transaction database state when the transaction body
errors.
-/

namespace Led

/-- A JavaScript id value: a store-assigned integer, or the decimal string
rendering of one (the only string ids the system produces). -/
inductive JsVal where
  | num (n : Int)
  | strOfNum (n : Int)
deriving DecidableEq

/-- JavaScript `id.toString()`: numbers render to their decimal string,
strings stay themselves. -/
def JsVal.toStr : JsVal → JsVal
  | .num n => .strOfNum n
  | .strOfNum n => .strOfNum n

/-- Whether the value is a string (after JSON round trip). -/
def JsVal.isStr : JsVal → Bool
  | .num _ => false
  | .strOfNum _ => true

/-- MySQL coercion of an id value used in a `WHERE id = ...` or an insert
into a `BIGINT` column: a decimal string coerces back to its number. -/
def idKey : JsVal → Int
  | .num n => n
  | .strOfNum n => n

/-- A row of the `outages_groups` table (times in ms, seconds-resolution). -/
structure GroupRow where
  id : Int
  event_type : String
  controller_id : String
  start_time : Int
  end_time : Int
  created_at : Int
  updated_at : Int
deriving DecidableEq

/-- A row of the `outages_items` table. -/
structure ItemRow where
  id : Int
  group_id : Int
  occurrence_time : Int
deriving DecidableEq

/-- A group object as it flows through the service layer: a row read from the
store, or a cached JSON snapshot (whose `id` is a string). -/
structure GroupObj where
  id : JsVal
  event_type : String
  controller_id : String
  start_time : Int
  end_time : Int
  created_at : Option Int
  updated_at : Option Int
deriving DecidableEq

/-- The object produced for a row by the `SELECT id, event_type,
controller_id, start_time, end_time, created_at, updated_at` queries. -/
def rowToObj (r : GroupRow) : GroupObj :=
  { id := .num r.id
    event_type := r.event_type
    controller_id := r.controller_id
    start_time := r.start_time
    end_time := r.end_time
    created_at := some r.created_at
    updated_at := some r.updated_at }

/-- The durable store: both tables plus the two `AUTO_INCREMENT` counters. -/
structure DB where
  groups : List GroupRow
  items : List ItemRow
  nextGroupId : Int
  nextItemId : Int
deriving DecidableEq

/-- The Redis cache: JSON group snapshots addressed by string key. -/
def Cache := String → Option GroupObj

/-- Durable store plus cache. -/
structure SysState where
  db : DB
  cache : Cache

/-- Injectable failures of the external store/cache clients. -/
structure Faults where
  cacheReadFails : Bool := false
  cacheWriteFails : Bool := false
  groupInsertFails : Bool := false
  itemInsertFails : Bool := false
  updateEndFails : Bool := false
deriving DecidableEq

/-- The fault-free environment. -/
def noFaults : Faults := {}

/-- Errors observable by the caller of the service. -/
inductive JsError where
  | storeErr (msg : String)
  | cacheErr (msg : String)
  | typeError (msg : String)
deriving DecidableEq

deriving instance DecidableEq for Except

/-- `dataProcess.service.js` line 17: the Redis key for a controller and
event type. -/
def generateCacheKey (controllerId eventType : String) : String :=
  "outage_group:" ++ controllerId ++ ":" ++ eventType

/-- `dataProcess.service.js` line 27 (`getCachedGroup`): read and parse the
cache entry; a connectivity or deserialization failure is an error of the
whole call (the source has no try/catch around `redis.get` / `JSON.parse`). -/
def getCachedGroup (f : Faults) (c : Cache) (controllerId eventType : String) :
    Except JsError (Option GroupObj) :=
  if f.cacheReadFails then .error (.cacheErr ("redis get failed"))
  else .ok (c (generateCacheKey controllerId eventType))

/-- `dataProcess.service.js` line 48 (`setCachedGroup`): the entry written is
the group with its `id` replaced by `id.toString()`. -/
def setCachedGroup (c : Cache) (controllerId eventType : String) (group : GroupObj) : Cache :=
  fun k =>
    if k = generateCacheKey controllerId eventType then
      some { group with id := group.id.toStr }
    else c k

/-- The fallible cache write (`redis.setEx`). -/
def setCachedGroupOp (f : Faults) (c : Cache) (controllerId eventType : String)
    (group : GroupObj) : Except JsError Cache :=
  if f.cacheWriteFails then .error (.cacheErr ("redis setEx failed"))
  else .ok (setCachedGroup c controllerId eventType group)

/-- `dataProcess.service.js` line 71: sixty minutes in milliseconds. -/
def sixtyMinutesInMs : Int := 60 * 60 * 1000

/-- `dataProcess.service.js` line 66 (`isEventInTimeRange`): the event time in
ms lies in the group window widened by sixty minutes on each side. -/
def isEventInTimeRange (group : GroupObj) (timestamp : Int) : Bool :=
  decide (group.start_time - sixtyMinutesInMs ≤ timestamp * 1000) &&
  decide (timestamp * 1000 ≤ group.end_time + sixtyMinutesInMs)

/-- `outageGroup.repository.js` (`findByControllerAndEventType`): the SQL
`WHERE` clause — matching controller and event type, `start_time <= t + 60min`
and `end_time >= t - 60min`. -/
def rowMatchesProbe (controllerId eventType : String) (timestamp : Int) (r : GroupRow) : Bool :=
  r.controller_id == controllerId && r.event_type == eventType &&
  decide (r.start_time ≤ timestamp * 1000 + sixtyMinutesInMs) &&
  decide (timestamp * 1000 - sixtyMinutesInMs ≤ r.end_time)

/-- The row of larger `end_time` among a row and an optional candidate. -/
def betterEnd (r : GroupRow) : Option GroupRow → GroupRow
  | none => r
  | some b => if r.end_time < b.end_time then b else r

/-- `ORDER BY end_time DESC LIMIT 1`: one row of maximal `end_time`. -/
def pickLatestEnd : List GroupRow → Option GroupRow
  | [] => none
  | r :: rs => some (betterEnd r (pickLatestEnd rs))

/-- `outageGroup.repository.js` (`findByControllerAndEventType`): the store
probe used by `findMatchingGroup`. -/
def findByControllerAndEventType (groups : List GroupRow) (controllerId eventType : String)
    (timestamp : Int) : Option GroupRow :=
  pickLatestEnd (groups.filter (rowMatchesProbe controllerId eventType timestamp))

/-- The item of larger `occurrence_time` among an item and an optional
candidate. -/
def betterOccurrence (i : ItemRow) : Option ItemRow → ItemRow
  | none => i
  | some b => if i.occurrence_time < b.occurrence_time then b else i

/-- `ORDER BY occurrence_time DESC LIMIT 1`: one item of maximal
`occurrence_time`. -/
def pickLatestOccurrence : List ItemRow → Option ItemRow
  | [] => none
  | i :: is => some (betterOccurrence i (pickLatestOccurrence is))

/-- `outageItem.repository.js` line 45 (`findLastItemByGroupId`): the item of
the group with the latest occurrence time. -/
def findLastItemByGroupId (items : List ItemRow) (groupId : Int) : Option ItemRow :=
  pickLatestOccurrence (items.filter fun i => i.group_id == groupId)

/-- Modelled from the spec: `outageItemRepo.createWithTx` is called by the
service and mocked by the repository's tests but is missing from the snapshot
of `outageItem.repository.js` under `src/` (which exports only `create` and
`findLastItemByGroupId`).  Per the spec it inserts one OutageItem for the
event inside the surrounding transaction, and the store rejects a duplicate
`(groupId, occurrenceTime)` pair through its uniqueness constraint. -/
def createItemWithTx (f : Faults) (db : DB) (groupId occurrenceTime : Int) :
    Except JsError DB :=
  if f.itemInsertFails then .error (.storeErr ("insert item failed"))
  else if db.items.any (fun i =>
      i.group_id == groupId && i.occurrence_time == occurrenceTime * 1000) then
    .error (.storeErr ("duplicate item for group"))
  else
    .ok { db with
      items := db.items ++ [⟨db.nextItemId, groupId, occurrenceTime * 1000⟩]
      nextItemId := db.nextItemId + 1 }

/-- The per-row effect of `UPDATE outages_groups SET end_time = ... WHERE
id = ...` (time in unix seconds, stored in ms). -/
def updEnd (groupId endTime : Int) (r : GroupRow) : GroupRow :=
  if r.id = groupId then { r with end_time := endTime * 1000 } else r

/-- `outageGroup.repository.js` (`updateEndTimeWithTx`): `UPDATE
outages_groups SET end_time = ... WHERE id = ...`. -/
def updateEndTimeWithTx (f : Faults) (db : DB) (groupId endTime : Int) :
    Except JsError DB :=
  if f.updateEndFails then .error (.storeErr ("update end_time failed"))
  else .ok { db with groups := db.groups.map (updEnd groupId endTime) }

/-- The value bound to `updated` inside `addEventToGroup`: either the input
group unchanged, or the `{id, end_time}` object returned by
`updateEndTimeWithTx` (which has no `start_time` field). -/
inductive MergeUpdated where
  | full (g : GroupObj)
  | endOnly (id : JsVal) (end_time : Int)
deriving DecidableEq

/-- `dataProcess.service.js` lines 131-157: the body of the merge
transaction.  Insert the item, compare the event time against the group's
bounds, and update one boundary.  On the `eventTime < start_time` branch the
source calls `outageGroupRepo.updateStartTimeWithTx`, which the group
repository does not export, so the call raises a TypeError (aborting the
transaction). -/
def mergeTx (f : Faults) (db : DB) (group : GroupObj) (timestamp : Int) :
    Except JsError (MergeUpdated × DB) :=
  match createItemWithTx f db (idKey group.id) timestamp with
  | .error e => .error e
  | .ok db1 =>
    if timestamp * 1000 < group.start_time then
      .error (.typeError ("outageGroupRepo.updateStartTimeWithTx is not a function"))
    else if group.end_time < timestamp * 1000 then
      match updateEndTimeWithTx f db1 (idKey group.id) timestamp with
      | .error e => .error e
      | .ok db2 => .ok (.endOnly group.id (timestamp * 1000), db2)
    else
      .ok (.full group, db1)

/-- `dataProcess.service.js` lines 160-164: `{...group,
...(updatedGroup.start_time && {start_time}), ...(updatedGroup.end_time &&
{end_time})}` — the snapshot with the boundary fields present on `updated`
overwritten. -/
def mergeGroupToCache (group : GroupObj) (updated : MergeUpdated) : GroupObj :=
  match updated with
  | .full g => { group with start_time := g.start_time, end_time := g.end_time }
  | .endOnly _ e => { group with end_time := e }

/-- `dataProcess.service.js` line 129 (`addEventToGroup`): run the merge
transaction (rolling the store back on error), then refresh the cache; a
cache-write failure after the commit propagates but keeps the committed
store state. -/
def addEventToGroup (f : Faults) (st : SysState) (group : GroupObj) (timestamp : Int) :
    Except JsError MergeUpdated × SysState :=
  match mergeTx f st.db group timestamp with
  | .error e => (.error e, st)
  | .ok (updated, db1) =>
    match setCachedGroupOp f st.cache group.controller_id group.event_type
        (mergeGroupToCache group updated) with
    | .error e => (.error e, { st with db := db1 })
    | .ok c1 => (.ok updated, { db := db1, cache := c1 })

/-- `outageGroup.repository.js` (`createWithTx`): insert the group row with
`start_time = end_time = timestamp` and return the object built from the
input data plus `LAST_INSERT_ID()` (no `created_at`/`updated_at` fields). -/
def createGroupWithTx (f : Faults) (db : DB) (controllerId eventType : String)
    (timestamp : Int) : Except JsError (GroupObj × DB) :=
  if f.groupInsertFails then .error (.storeErr ("insert group failed"))
  else
    .ok
      ({ id := .num db.nextGroupId
         event_type := eventType
         controller_id := controllerId
         start_time := timestamp * 1000
         end_time := timestamp * 1000
         created_at := none
         updated_at := none },
       { db with
         groups := db.groups ++
           [⟨db.nextGroupId, eventType, controllerId, timestamp * 1000,
             timestamp * 1000, 0, 0⟩]
         nextGroupId := db.nextGroupId + 1 })

/-- `dataProcess.service.js` lines 99-115: the body of the create
transaction — group row then first item. -/
def createTx (f : Faults) (db : DB) (controllerId eventType : String) (timestamp : Int) :
    Except JsError (GroupObj × DB) :=
  match createGroupWithTx f db controllerId eventType timestamp with
  | .error e => .error e
  | .ok (g, db1) =>
    match createItemWithTx f db1 (idKey g.id) timestamp with
    | .error e => .error e
    | .ok db2 => .ok (g, db2)

/-- `dataProcess.service.js` line 97 (`createNewGroup`): run the create
transaction, then cache the new group (outside the transaction). -/
def createNewGroup (f : Faults) (st : SysState) (controllerId eventType : String)
    (timestamp : Int) : Except JsError GroupObj × SysState :=
  match createTx f st.db controllerId eventType timestamp with
  | .error e => (.error e, st)
  | .ok (g, db1) =>
    match setCachedGroupOp f st.cache controllerId eventType g with
    | .error e => (.error e, { st with db := db1 })
    | .ok c1 => (.ok g, { db := db1, cache := c1 })

/-- The result object of `processOutageEvent`. -/
structure PResult where
  success : Bool
  action : String
  group_id : JsVal
deriving DecidableEq

/-- `dataProcess.service.js` lines 195-214: the store probe and create steps
reached when the cache yields no admitting group. -/
def processAfterCacheMiss (f : Faults) (st : SysState) (controller_id event_type : String)
    (timestamp : Int) : Except JsError PResult × SysState :=
  match findByControllerAndEventType st.db.groups controller_id event_type timestamp with
  | some r =>
    match addEventToGroup f st (rowToObj r) timestamp with
    | (.ok _, st1) => (.ok ⟨true, "added_to_db_group", .num r.id⟩, st1)
    | (.error e, st1) => (.error e, st1)
  | none =>
    match createNewGroup f st controller_id event_type timestamp with
    | (.ok g, st1) => (.ok ⟨true, "created_new_group", g.id⟩, st1)
    | (.error e, st1) => (.error e, st1)

/-- `dataProcess.service.js` line 178 (`processOutageEvent`): cache probe,
then store probe, then create, short-circuiting on the first match. -/
def processOutageEvent (f : Faults) (st : SysState) (controller_id event_type : String)
    (timestamp : Int) : Except JsError PResult × SysState :=
  match getCachedGroup f st.cache controller_id event_type with
  | .error e => (.error e, st)
  | .ok none => processAfterCacheMiss f st controller_id event_type timestamp
  | .ok (some g) =>
    if isEventInTimeRange g timestamp then
      match addEventToGroup f st g timestamp with
      | (.ok _, st1) => (.ok ⟨true, "added_to_cached_group", g.id⟩, st1)
      | (.error e, st1) => (.error e, st1)
    else processAfterCacheMiss f st controller_id event_type timestamp

/-- One serialized group of the query response
(`outageQuery.service.js` lines 51-57). -/
structure QueryItemOut where
  id : Int
  outage_type : String
  controller_id : String
  start_time : String
  end_time : String
deriving DecidableEq

/-- The pagination block of the query response. -/
structure QueryPage where
  total : Nat
  offset : Nat
  limit : Nat
deriving DecidableEq

/-- The query response. -/
structure QueryResult where
  data : List QueryItemOut
  pagination : QueryPage
deriving DecidableEq

/-- `outageGroup.repository.js` (`findAndCountByQueryCriteria`): the Prisma
`where` condition — event type matches, `startTime <= queryEnd`,
`endTime >= queryStart`, and the controller filter when present. -/
def queryWhere (outageType : String) (controllerId : Option String)
    (startTime endTime : Int) (r : GroupRow) : Bool :=
  r.event_type == outageType &&
  decide (r.start_time ≤ endTime * 1000) &&
  decide (startTime * 1000 ≤ r.end_time) &&
  (match controllerId with
   | some c => r.controller_id == c
   | none => true)

/-- `orderBy: { startTime: 'desc' }` as a stable insertion sort with the
descending relation on `start_time`. -/
def sortByStartDesc (l : List GroupRow) : List GroupRow :=
  l.insertionSort fun a b => b.start_time ≤ a.start_time

/-- `outageGroup.repository.js` (`findAndCountByQueryCriteria`): the filtered
rows ordered by `start_time` descending with `skip`/`take` applied, paired
with the unpaginated count for the same filter. -/
def findAndCountByQueryCriteria (groups : List GroupRow) (outageType : String)
    (controllerId : Option String) (startTime endTime : Int) (offset limit : Nat) :
    List GroupRow × Nat :=
  let hits := groups.filter (queryWhere outageType controllerId startTime endTime)
  (((sortByStartDesc hits).drop offset).take limit, hits.length)

/-- `outageQuery.service.js` lines 51-57: serialize one row — numeric id,
snake-case type and controller, boundaries as decimal-string unix seconds
(`String(Math.floor(date.getTime() / 1000))`). -/
def toQueryItemOut (r : GroupRow) : QueryItemOut :=
  { id := r.id
    outage_type := r.event_type
    controller_id := r.controller_id
    start_time := toString (Int.fdiv r.start_time 1000)
    end_time := toString (Int.fdiv r.end_time 1000) }

/-- The request of `queryOutageGroups`. -/
structure QueryParams where
  outageType : String
  controllerId : Option String := none
  startTime : Int
  endTime : Int
  offset : Option Nat := none
  limit : Option Nat := none

/-- `outageQuery.service.js` lines 36-39: the controller filter is added to
the query only when the value is truthy (present and non-empty). -/
def normControllerId : Option String → Option String
  | some c => if c = "" then none else some c
  | none => none

/-- `outageQuery.service.js` line 19 (`queryOutageGroups`): defaults
`offset = 0`, `limit = 20`. -/
def queryOutageGroups (groups : List GroupRow) (p : QueryParams) : QueryResult :=
  let offset := p.offset.getD 0
  let limit := p.limit.getD 20
  let res := findAndCountByQueryCriteria groups p.outageType (normControllerId p.controllerId)
    p.startTime p.endTime offset limit
  { data := res.1.map toQueryItemOut
    pagination := { total := res.2, offset := offset, limit := limit } }

/-! ### Invariants -/

/-- Well-formedness of the group table: window bounds ordered, all ids below
the `AUTO_INCREMENT` counter, ids pairwise distinct. -/
def DBWf (db : DB) : Prop :=
  (∀ r ∈ db.groups, r.start_time ≤ r.end_time ∧ r.id < db.nextGroupId) ∧
  db.groups.Pairwise (fun a b => a.id ≠ b.id)

/-- A service-level group snapshot is coherent with the store: its bounds are
ordered and some row carries its id, controller, event type, the same
`start_time` (the engine never rewrites `start_time`), and an `end_time` at
least the snapshot's. -/
def SnapOk (db : DB) (g : GroupObj) : Prop :=
  g.start_time ≤ g.end_time ∧
  ∃ r ∈ db.groups, r.id = idKey g.id ∧ r.controller_id = g.controller_id ∧
    r.event_type = g.event_type ∧ r.start_time = g.start_time ∧ g.end_time ≤ r.end_time

/-- The system invariant: a well-formed group table, and every cache entry
sits at its canonical key and is coherent with the store. -/
def Inv (st : SysState) : Prop :=
  DBWf st.db ∧
  ∀ k g, st.cache k = some g →
    k = generateCacheKey g.controller_id g.event_type ∧ SnapOk st.db g

/-! ### Derived state descriptions (used to state theorems) -/

/-- The store after a successful item insert for group `gid` at unix-seconds
time `t` (the success branch of `createItemWithTx`). -/
def insertedItemDB (db : DB) (gid t : Int) : DB :=
  { db with
    items := db.items ++ [⟨db.nextItemId, gid, t * 1000⟩]
    nextItemId := db.nextItemId + 1 }

/-- The store after a successful `end_time` update of group `gid` to
unix-seconds time `t` (the success branch of `updateEndTimeWithTx`). -/
def endUpdatedDB (db : DB) (gid t : Int) : DB :=
  { db with groups := db.groups.map (updEnd gid t) }

/-! ### Concrete scenario states -/

/-- A fresh system: empty tables, counters at one, empty cache. -/
def emptyState : SysState :=
  { db := { groups := [], items := [], nextGroupId := 1, nextItemId := 1 }
    cache := fun _ => none }

/-- Only the cache read fails. -/
def cacheReadFault : Faults := { cacheReadFails := true }

/-- Only the cache write fails. -/
def cacheWriteFault : Faults := { cacheWriteFails := true }

/-- Only the boundary update fails (Scenario E shape). -/
def updateEndFault : Faults := { updateEndFails := true }

/-- A store holding one group at `[1756665796, 1756665796]` (seconds) for
controller CTRL1 with its one item, and an empty cache. -/
def stOneGroup : SysState :=
  { db := { groups := [⟨1, "led_outage", "CTRL1", 1756665796000, 1756665796000, 0, 0⟩]
            items := [⟨1, 1, 1756665796000⟩]
            nextGroupId := 2, nextItemId := 2 }
    cache := fun _ => none }

/-- A store holding one group windowed `[1756665696, 1756665796]` (seconds)
whose items include an occurrence at `1756666696` (900 s past the group's
`end_time`), and an empty cache. -/
def stLateItem : SysState :=
  { db := { groups := [⟨1, "led_outage", "CTRL1", 1756665696000, 1756665796000, 0, 0⟩]
            items := [⟨1, 1, 1756666696000⟩]
            nextGroupId := 2, nextItemId := 2 }
    cache := fun _ => none }

/-- A cached snapshot of the group of `stOneGroup`, as `setCachedGroup`
would have written it (string id, no timestamps beyond the boundaries). -/
def cachedSnapshot : GroupObj :=
  ⟨.strOfNum 1, "led_outage", "CTRL1", 1756665796000, 1756665796000, none, none⟩

/-- `stOneGroup` together with its cache entry. -/
def stCachedGroup : SysState :=
  { db := stOneGroup.db
    cache := fun k =>
      if k = generateCacheKey ("CTRL1") "led_outage" then some cachedSnapshot else none }

/-! ### Helper lemmas -/

theorem pickLatestEnd_eq_none {l : List GroupRow} : pickLatestEnd l = none ↔ l = [] := by
  cases l with
  | nil => simp [pickLatestEnd]
  | cons x xs => simp [pickLatestEnd]

theorem betterEnd_cases (r : GroupRow) (o : Option GroupRow) :
    betterEnd r o = r ∨ ∃ b, o = some b ∧ betterEnd r o = b := by
  cases o with
  | none => exact Or.inl rfl
  | some b =>
    simp only [betterEnd]
    by_cases hlt : r.end_time < b.end_time
    · exact Or.inr ⟨b, rfl, if_pos hlt⟩
    · exact Or.inl (if_neg hlt)

theorem betterEnd_le (r : GroupRow) (o : Option GroupRow) :
    r.end_time ≤ (betterEnd r o).end_time ∧
    ∀ b, o = some b → b.end_time ≤ (betterEnd r o).end_time := by
  cases o with
  | none => exact ⟨le_refl _, by intro b hb; exact Option.noConfusion hb⟩
  | some b =>
    simp only [betterEnd]
    by_cases hlt : r.end_time < b.end_time
    · rw [if_pos hlt]
      exact ⟨le_of_lt hlt, by intro c hc; injection hc with hc; subst hc; exact le_refl _⟩
    · rw [if_neg hlt]
      exact ⟨le_refl _, by intro c hc; injection hc with hc; subst hc; exact not_lt.mp hlt⟩

theorem pickLatestEnd_mem {l : List GroupRow} {r : GroupRow}
    (h : pickLatestEnd l = some r) : r ∈ l := by
  induction l with
  | nil => simp [pickLatestEnd] at h
  | cons x xs ih =>
    simp only [pickLatestEnd] at h
    injection h with h
    rcases betterEnd_cases x (pickLatestEnd xs) with hc | ⟨b, hb, hc⟩
    · rw [hc] at h
      subst h
      exact List.mem_cons_self _ _
    · rw [hc] at h
      subst h
      exact List.mem_cons_of_mem _ (ih hb)

theorem pickLatestEnd_max : ∀ {l : List GroupRow} {r : GroupRow},
    pickLatestEnd l = some r → ∀ x ∈ l, x.end_time ≤ r.end_time := by
  intro l
  induction l with
  | nil => intro r h; simp [pickLatestEnd] at h
  | cons x xs ih =>
    intro r h y hy
    simp only [pickLatestEnd] at h
    injection h with h
    subst h
    rcases List.mem_cons.mp hy with h1 | h1
    · exact h1 ▸ (betterEnd_le x (pickLatestEnd xs)).1
    · cases hx : pickLatestEnd xs with
      | none =>
        rw [pickLatestEnd_eq_none.mp hx] at h1
        simp at h1
      | some b =>
        exact le_trans (ih hx y h1) ((betterEnd_le x (some b)).2 b rfl)

theorem rowMatchesProbe_iff {cid et : String} {t : Int} {r : GroupRow} :
    rowMatchesProbe cid et t r = true ↔
      r.controller_id = cid ∧ r.event_type = et ∧
      r.start_time - sixtyMinutesInMs ≤ t * 1000 ∧
      t * 1000 ≤ r.end_time + sixtyMinutesInMs := by
  simp only [rowMatchesProbe, Bool.and_eq_true, beq_iff_eq, decide_eq_true_eq]
  constructor
  · rintro ⟨⟨⟨h1, h2⟩, h3⟩, h4⟩
    exact ⟨h1, h2, by omega, by omega⟩
  · rintro ⟨h1, h2, h3, h4⟩
    exact ⟨⟨⟨h1, h2⟩, by omega⟩, by omega⟩

theorem createItemWithTx_ok {f : Faults} {db : DB} {gid t : Int} {db1 : DB}
    (h : createItemWithTx f db gid t = .ok db1) : db1 = insertedItemDB db gid t := by
  unfold createItemWithTx at h
  split at h
  · exact Except.noConfusion h
  · split at h
    · exact Except.noConfusion h
    · injection h with h
      exact h.symm

theorem updateEndTimeWithTx_ok {f : Faults} {db : DB} {gid t : Int} {db1 : DB}
    (h : updateEndTimeWithTx f db gid t = .ok db1) : db1 = endUpdatedDB db gid t := by
  unfold updateEndTimeWithTx at h
  split at h
  · exact Except.noConfusion h
  · injection h with h
    exact h.symm

theorem createGroupWithTx_ok {f : Faults} {db : DB} {cid et : String} {t : Int}
    {g : GroupObj} {db1 : DB} (h : createGroupWithTx f db cid et t = .ok (g, db1)) :
    g = { id := .num db.nextGroupId, event_type := et, controller_id := cid,
          start_time := t * 1000, end_time := t * 1000,
          created_at := none, updated_at := none } ∧
    db1 = { db with
            groups := db.groups ++
              [⟨db.nextGroupId, et, cid, t * 1000, t * 1000, 0, 0⟩]
            nextGroupId := db.nextGroupId + 1 } := by
  unfold createGroupWithTx at h
  split at h
  · exact Except.noConfusion h
  · injection h with h
    injection h with h1 h2
    exact ⟨h1.symm, h2.symm⟩

theorem createTx_ok {f : Faults} {db : DB} {cid et : String} {t : Int} {g : GroupObj}
    {db2 : DB} (h : createTx f db cid et t = .ok (g, db2)) :
    g = { id := .num db.nextGroupId, event_type := et, controller_id := cid,
          start_time := t * 1000, end_time := t * 1000,
          created_at := none, updated_at := none } ∧
    db2 = insertedItemDB
      { db with
        groups := db.groups ++
          [⟨db.nextGroupId, et, cid, t * 1000, t * 1000, 0, 0⟩]
        nextGroupId := db.nextGroupId + 1 }
      db.nextGroupId t := by
  unfold createTx at h
  split at h
  · exact Except.noConfusion h
  · rename_i g0 db1 heq
    obtain ⟨hg0, hdb1⟩ := createGroupWithTx_ok heq
    subst hg0
    subst hdb1
    split at h
    · exact Except.noConfusion h
    · rename_i db2x heq2
      injection h with h
      injection h with h1 h2
      refine ⟨h1.symm, ?_⟩
      rw [← h2, createItemWithTx_ok heq2]
      rfl

theorem createNewGroup_ok {f : Faults} {st : SysState} {cid et : String} {t : Int}
    {g : GroupObj} {st1 : SysState} (h : createNewGroup f st cid et t = (.ok g, st1)) :
    createTx f st.db cid et t = .ok (g, st1.db) ∧ f.cacheWriteFails = false ∧
    st1.cache = setCachedGroup st.cache cid et g := by
  unfold createNewGroup at h
  split at h
  · injection h with h1 h2
    exact Except.noConfusion h1
  · rename_i g0 db1 heq
    split at h
    · injection h with h1 h2
      exact Except.noConfusion h1
    · rename_i c1 heq2
      injection h with h1 h2
      injection h1 with h1
      subst h1
      subst h2
      unfold setCachedGroupOp at heq2
      by_cases hcw : f.cacheWriteFails = true
      · rw [if_pos hcw] at heq2
        exact Except.noConfusion heq2
      · rw [if_neg hcw] at heq2
        injection heq2 with heq2
        exact ⟨heq, Bool.eq_false_iff.mpr hcw, heq2.symm⟩

theorem mergeTx_ok {f : Faults} {db : DB} {g : GroupObj} {t : Int} {u : MergeUpdated}
    {db2 : DB} (h : mergeTx f db g t = .ok (u, db2)) :
    g.start_time ≤ t * 1000 ∧
    ((t * 1000 ≤ g.end_time ∧ u = .full g ∧ db2 = insertedItemDB db (idKey g.id) t) ∨
     (g.end_time < t * 1000 ∧ u = .endOnly g.id (t * 1000) ∧
      db2 = endUpdatedDB (insertedItemDB db (idKey g.id) t) (idKey g.id) t)) := by
  unfold mergeTx at h
  split at h
  · exact Except.noConfusion h
  · rename_i db1 heq
    have hins := createItemWithTx_ok heq
    subst hins
    split at h
    · exact Except.noConfusion h
    · rename_i hs
      split at h
      · rename_i he
        split at h
        · exact Except.noConfusion h
        · rename_i db2x heq2
          injection h with h
          injection h with h1 h2
          refine ⟨by omega, Or.inr ⟨he, h1.symm, ?_⟩⟩
          rw [← h2, updateEndTimeWithTx_ok heq2]
      · rename_i he
        injection h with h
        injection h with h1 h2
        exact ⟨by omega, Or.inl ⟨by omega, h1.symm, h2.symm⟩⟩

theorem addEventToGroup_ok {f : Faults} {st : SysState} {g : GroupObj} {t : Int}
    {u : MergeUpdated} {st1 : SysState} (h : addEventToGroup f st g t = (.ok u, st1)) :
    mergeTx f st.db g t = .ok (u, st1.db) ∧ f.cacheWriteFails = false ∧
    st1.cache = setCachedGroup st.cache g.controller_id g.event_type
      (mergeGroupToCache g u) := by
  unfold addEventToGroup at h
  split at h
  · injection h with h1 h2
    exact Except.noConfusion h1
  · rename_i u0 db1 heq
    split at h
    · injection h with h1 h2
      exact Except.noConfusion h1
    · rename_i c1 heq2
      injection h with h1 h2
      injection h1 with h1
      subst h1
      subst h2
      unfold setCachedGroupOp at heq2
      by_cases hcw : f.cacheWriteFails = true
      · rw [if_pos hcw] at heq2
        exact Except.noConfusion heq2
      · rw [if_neg hcw] at heq2
        injection heq2 with heq2
        exact ⟨heq, Bool.eq_false_iff.mpr hcw, heq2.symm⟩

theorem processOutageEvent_cachedHit {f : Faults} {st : SysState} {cid et : String}
    {t : Int} {g : GroupObj} {u : MergeUpdated} {st1 : SysState}
    (hf : f.cacheReadFails = false)
    (hc : st.cache (generateCacheKey cid et) = some g)
    (hr : isEventInTimeRange g t = true)
    (hm : addEventToGroup f st g t = (.ok u, st1)) :
    processOutageEvent f st cid et t =
      (.ok ⟨true, "added_to_cached_group", g.id⟩, st1) := by
  simp [processOutageEvent, getCachedGroup, hf, hc, hr, hm]

theorem processOutageEvent_cacheMiss {f : Faults} {st : SysState} {cid et : String}
    {t : Int} (hf : f.cacheReadFails = false)
    (hc : st.cache (generateCacheKey cid et) = none ∨
      ∃ g, st.cache (generateCacheKey cid et) = some g ∧ isEventInTimeRange g t = false) :
    processOutageEvent f st cid et t = processAfterCacheMiss f st cid et t := by
  rcases hc with hc | ⟨g, hc, hr⟩ <;> simp [processOutageEvent, getCachedGroup, hf, hc]
  intro hr2
  rw [hr] at hr2
  exact Bool.noConfusion hr2

theorem processAfterCacheMiss_db {f : Faults} {st : SysState} {cid et : String}
    {t : Int} {r : GroupRow} {u : MergeUpdated} {st1 : SysState}
    (hd : findByControllerAndEventType st.db.groups cid et t = some r)
    (hm : addEventToGroup f st (rowToObj r) t = (.ok u, st1)) :
    processAfterCacheMiss f st cid et t =
      (.ok ⟨true, "added_to_db_group", .num r.id⟩, st1) := by
  simp [processAfterCacheMiss, hd, hm]

theorem processAfterCacheMiss_create {f : Faults} {st : SysState} {cid et : String}
    {t : Int} {g : GroupObj} {st1 : SysState}
    (hd : findByControllerAndEventType st.db.groups cid et t = none)
    (hg : createNewGroup f st cid et t = (.ok g, st1)) :
    processAfterCacheMiss f st cid et t =
      (.ok ⟨true, "created_new_group", g.id⟩, st1) := by
  simp [processAfterCacheMiss, hd, hg]

theorem updEnd_id (gid t : Int) (r : GroupRow) : (updEnd gid t r).id = r.id := by
  unfold updEnd
  split <;> rfl

theorem updEnd_keeps (gid t : Int) (r : GroupRow) :
    (updEnd gid t r).id = r.id ∧
    (updEnd gid t r).controller_id = r.controller_id ∧
    (updEnd gid t r).event_type = r.event_type ∧
    (updEnd gid t r).start_time = r.start_time := by
  unfold updEnd
  split <;> exact ⟨rfl, rfl, rfl, rfl⟩

theorem updEnd_of_ne {gid t : Int} {r : GroupRow} (h : ¬r.id = gid) :
    updEnd gid t r = r := by
  unfold updEnd
  rw [if_neg h]

theorem updEnd_of_eq {gid t : Int} {r : GroupRow} (h : r.id = gid) :
    updEnd gid t r = { r with end_time := t * 1000 } := by
  unfold updEnd
  rw [if_pos h]

theorem pairwise_ne_unique : ∀ {l : List GroupRow},
    l.Pairwise (fun a b => a.id ≠ b.id) →
    ∀ a ∈ l, ∀ b ∈ l, a.id = b.id → a = b := by
  intro l hp
  induction hp with
  | nil =>
    intro a ha
    simp at ha
  | cons hx _ ih =>
    intro a ha b hb hab
    rcases List.mem_cons.mp ha with rfl | ha' <;> rcases List.mem_cons.mp hb with h | hb'
    · rw [h]
    · exact absurd hab (hx b hb')
    · subst h
      exact absurd hab.symm (hx a ha')
    · exact ih a ha' b hb' hab

theorem dbwf_unique {db : DB} (hwf : DBWf db) :
    ∀ a ∈ db.groups, ∀ b ∈ db.groups, a.id = b.id → a = b :=
  pairwise_ne_unique hwf.2

/-- `idKey` is invariant under JavaScript `toString`. -/
theorem idKey_toStr (v : JsVal) : idKey v.toStr = idKey v := by
  cases v <;> rfl

theorem snapOk_rowToObj {db : DB} {r : GroupRow} (hwf : DBWf db) (hr : r ∈ db.groups) :
    SnapOk db (rowToObj r) :=
  ⟨(hwf.1 r hr).1, r, hr, rfl, rfl, rfl, rfl, le_refl _⟩

theorem findByControllerAndEventType_mem {groups : List GroupRow} {cid et : String}
    {t : Int} {r : GroupRow} (h : findByControllerAndEventType groups cid et t = some r) :
    r ∈ groups :=
  (List.mem_filter.mp (pickLatestEnd_mem h)).1

/-- A well-formed store stays well-formed when only items change. -/
theorem dbwf_insertedItemDB {db : DB} (gid t : Int) (h : DBWf db) :
    DBWf (insertedItemDB db gid t) := h

theorem snapOk_insertedItemDB {db : DB} {g : GroupObj} (gid t : Int) (h : SnapOk db g) :
    SnapOk (insertedItemDB db gid t) g := h

theorem dbwf_endUpdatedDB {db : DB} {gid t : Int} (h : DBWf db)
    (hbound : ∀ r ∈ db.groups, r.id = gid → r.start_time ≤ t * 1000) :
    DBWf (endUpdatedDB db gid t) := by
  constructor
  · intro x hx
    obtain ⟨y, hy, hxy⟩ := List.mem_map.mp hx
    subst hxy
    by_cases hid : y.id = gid
    · rw [updEnd_of_eq hid]
      exact ⟨hbound y hy hid, (h.1 y hy).2⟩
    · rw [updEnd_of_ne hid]
      exact h.1 y hy
  · refine List.Pairwise.map _ ?_ h.2
    intro a b hab
    rw [updEnd_id, updEnd_id]
    exact hab

theorem mergeGroupToCache_keeps (g : GroupObj) (u : MergeUpdated) :
    (mergeGroupToCache g u).controller_id = g.controller_id ∧
    (mergeGroupToCache g u).event_type = g.event_type ∧
    (mergeGroupToCache g u).id = g.id := by
  cases u <;> exact ⟨rfl, rfl, rfl⟩

theorem addEventToGroup_inv (f : Faults) (st : SysState) (g : GroupObj) (t : Int)
    (hInv : Inv st) (hSnap : SnapOk st.db g)
    (hDom : ∀ k2 g2, st.cache k2 = some g2 → idKey g2.id = idKey g.id →
      g2.end_time ≤ g.end_time) :
    Inv (addEventToGroup f st g t).2 := by
  obtain ⟨hwf, hcoh⟩ := hInv
  cases hm : mergeTx f st.db g t with
  | error e =>
    simp only [addEventToGroup, hm]
    exact ⟨hwf, hcoh⟩
  | ok p =>
    obtain ⟨u, db1⟩ := p
    obtain ⟨hstart_le, hcase⟩ := mergeTx_ok hm
    obtain ⟨hge, rw0, hrm, hrid0, hrcid, hret, hrstart, hrend⟩ := hSnap
    have hdb1wf : DBWf db1 := by
      rcases hcase with ⟨hle, hu, hdb⟩ | ⟨hlt, hu, hdb⟩
      · rw [hdb]
        exact hwf
      · rw [hdb]
        refine dbwf_endUpdatedDB hwf ?_
        intro r hr hrid
        have hrr : r = rw0 := dbwf_unique hwf r hr rw0 hrm (by rw [hrid, hrid0])
        subst hrr
        omega
    have hpres : ∀ k2 g2, st.cache k2 = some g2 → SnapOk db1 g2 := by
      intro k2 g2 hk2
      have hs2 : SnapOk st.db g2 := (hcoh k2 g2 hk2).2
      rcases hcase with ⟨hle, hu, hdb⟩ | ⟨hlt, hu, hdb⟩
      · rw [hdb]
        exact hs2
      · rw [hdb]
        obtain ⟨hge2, r2, hr2m, hr2id, hr2cid, hr2et, hr2start, hr2end⟩ := hs2
        by_cases hid : r2.id = idKey g.id
        · have hdome : g2.end_time ≤ g.end_time :=
            hDom k2 g2 hk2 (by rw [← hr2id, hid])
          refine ⟨hge2, updEnd (idKey g.id) t r2,
            List.mem_map.mpr ⟨r2, hr2m, rfl⟩, ?_, ?_, ?_, ?_, ?_⟩
          · rw [updEnd_id, hr2id]
          · rw [(updEnd_keeps _ _ r2).2.1, hr2cid]
          · rw [(updEnd_keeps _ _ r2).2.2.1, hr2et]
          · rw [(updEnd_keeps _ _ r2).2.2.2, hr2start]
          · rw [updEnd_of_eq hid]
            show g2.end_time ≤ t * 1000
            omega
        · refine ⟨hge2, r2, List.mem_map.mpr ⟨r2, hr2m, updEnd_of_ne hid⟩,
            hr2id, hr2cid, hr2et, hr2start, hr2end⟩
    have hnew : SnapOk db1
        { mergeGroupToCache g u with id := (mergeGroupToCache g u).id.toStr } := by
      rcases hcase with ⟨hle, hu, hdb⟩ | ⟨hlt, hu, hdb⟩
      · subst hu
        rw [hdb]
        refine ⟨hge, rw0, hrm, ?_, hrcid, hret, hrstart, hrend⟩
        show rw0.id = idKey g.id.toStr
        rw [idKey_toStr]
        exact hrid0
      · subst hu
        rw [hdb]
        refine ⟨?_, updEnd (idKey g.id) t rw0,
          List.mem_map.mpr ⟨rw0, hrm, rfl⟩, ?_, ?_, ?_, ?_, ?_⟩
        · show g.start_time ≤ t * 1000
          omega
        · rw [updEnd_id]
          show rw0.id = idKey g.id.toStr
          rw [idKey_toStr]
          exact hrid0
        · rw [(updEnd_keeps _ _ rw0).2.1, hrcid]
          rfl
        · rw [(updEnd_keeps _ _ rw0).2.2.1, hret]
          rfl
        · rw [(updEnd_keeps _ _ rw0).2.2.2, hrstart]
          rfl
        · rw [updEnd_of_eq hrid0]
          exact le_refl _
    by_cases hw : f.cacheWriteFails = true
    · simp only [addEventToGroup, hm, setCachedGroupOp, hw, if_true]
      exact ⟨hdb1wf, fun k2 g2 hk2 => ⟨(hcoh k2 g2 hk2).1, hpres k2 g2 hk2⟩⟩
    · have hw' : f.cacheWriteFails = false := Bool.eq_false_iff.mpr hw
      simp only [addEventToGroup, hm, setCachedGroupOp, hw', Bool.false_eq_true, if_false]
      refine ⟨hdb1wf, ?_⟩
      intro k2 g2 hk2
      simp only [setCachedGroup] at hk2
      by_cases hkey : k2 = generateCacheKey g.controller_id g.event_type
      · rw [if_pos hkey] at hk2
        injection hk2 with hk2
        subst hk2
        refine ⟨?_, hnew⟩
        rw [hkey]
        obtain ⟨hc1, hc2, _⟩ := mergeGroupToCache_keeps g u
        show generateCacheKey g.controller_id g.event_type
          = generateCacheKey (mergeGroupToCache g u).controller_id
            (mergeGroupToCache g u).event_type
        rw [hc1, hc2]
      · rw [if_neg hkey] at hk2
        exact ⟨(hcoh k2 g2 hk2).1, hpres k2 g2 hk2⟩

theorem createNewGroup_inv (f : Faults) (st : SysState) (cid et : String) (t : Int)
    (hInv : Inv st) : Inv (createNewGroup f st cid et t).2 := by
  obtain ⟨hwf, hcoh⟩ := hInv
  cases hct : createTx f st.db cid et t with
  | error e =>
    simp only [createNewGroup, hct]
    exact ⟨hwf, hcoh⟩
  | ok p =>
    obtain ⟨g, db1⟩ := p
    obtain ⟨hg, hdb⟩ := createTx_ok hct
    have hwf1 : DBWf db1 := by
      rw [hdb]
      constructor
      · intro r hr
        rcases List.mem_append.mp hr with h | h
        · obtain ⟨h1, h2⟩ := hwf.1 r h
          refine ⟨h1, ?_⟩
          show r.id < st.db.nextGroupId + 1
          omega
        · rw [List.mem_singleton.mp h]
          refine ⟨le_refl _, ?_⟩
          show st.db.nextGroupId < st.db.nextGroupId + 1
          omega
      · refine List.pairwise_append.mpr ⟨hwf.2, List.pairwise_singleton _ _, ?_⟩
        intro a ha b hb
        rw [List.mem_singleton.mp hb]
        have := (hwf.1 a ha).2
        show a.id ≠ st.db.nextGroupId
        omega
    have hsnap1 : ∀ g2, SnapOk st.db g2 → SnapOk db1 g2 := by
      intro g2 hs
      obtain ⟨hge2, r2, hm2, hid2, hcid2, het2, hst2, hen2⟩ := hs
      rw [hdb]
      exact ⟨hge2, r2, List.mem_append_left _ hm2, hid2, hcid2, het2, hst2, hen2⟩
    have hnew : SnapOk db1 { g with id := g.id.toStr } := by
      rw [hdb, hg]
      refine ⟨le_refl _,
        ⟨st.db.nextGroupId, et, cid, t * 1000, t * 1000, 0, 0⟩,
        List.mem_append_right _ (List.mem_singleton.mpr rfl), rfl, rfl, rfl, rfl, le_refl _⟩
    by_cases hw : f.cacheWriteFails = true
    · simp only [createNewGroup, hct, setCachedGroupOp, hw, if_true]
      exact ⟨hwf1, fun k2 g2 hk2 => ⟨(hcoh k2 g2 hk2).1, hsnap1 g2 (hcoh k2 g2 hk2).2⟩⟩
    · have hw' : f.cacheWriteFails = false := Bool.eq_false_iff.mpr hw
      simp only [createNewGroup, hct, setCachedGroupOp, hw', Bool.false_eq_true, if_false]
      refine ⟨hwf1, ?_⟩
      intro k2 g2 hk2
      simp only [setCachedGroup] at hk2
      by_cases hkey : k2 = generateCacheKey cid et
      · rw [if_pos hkey] at hk2
        injection hk2 with hk2
        subst hk2
        refine ⟨?_, hnew⟩
        rw [hkey, hg]
      · rw [if_neg hkey] at hk2
        exact ⟨(hcoh k2 g2 hk2).1, hsnap1 g2 (hcoh k2 g2 hk2).2⟩

theorem processAfterCacheMiss_inv (f : Faults) (st : SysState) (cid et : String)
    (t : Int) (hInv : Inv st) : Inv (processAfterCacheMiss f st cid et t).2 := by
  cases hd : findByControllerAndEventType st.db.groups cid et t with
  | none =>
    simp only [processAfterCacheMiss, hd]
    have h := createNewGroup_inv f st cid et t hInv
    rcases hg : createNewGroup f st cid et t with ⟨res, st1⟩
    rw [hg] at h
    cases res <;> exact h
  | some r =>
    simp only [processAfterCacheMiss, hd]
    have hmem := findByControllerAndEventType_mem hd
    have hDom : ∀ k2 g2, st.cache k2 = some g2 →
        idKey g2.id = idKey (rowToObj r).id →
        g2.end_time ≤ (rowToObj r).end_time := by
      intro k2 g2 hk2 hid
      obtain ⟨_, hs2⟩ := hInv.2 k2 g2 hk2
      obtain ⟨_, r2, hm2, hid2, _, _, _, hen2⟩ := hs2
      have hr2 : r2 = r := dbwf_unique hInv.1 r2 hm2 r hmem (by rw [hid2, hid]; rfl)
      rw [hr2] at hen2
      exact hen2
    have h := addEventToGroup_inv f st (rowToObj r) t hInv
      (snapOk_rowToObj hInv.1 hmem) hDom
    rcases ha : addEventToGroup f st (rowToObj r) t with ⟨res, st1⟩
    rw [ha] at h
    cases res <;> exact h

theorem processOutageEvent_inv (f : Faults) (st : SysState) (cid et : String)
    (t : Int) (hInv : Inv st) : Inv (processOutageEvent f st cid et t).2 := by
  by_cases hr : f.cacheReadFails = true
  · simp only [processOutageEvent, getCachedGroup, hr, if_true]
    exact hInv
  · have hr' : f.cacheReadFails = false := Bool.eq_false_iff.mpr hr
    cases hc : st.cache (generateCacheKey cid et) with
    | none =>
      simp only [processOutageEvent, getCachedGroup, hr', Bool.false_eq_true,
        if_false, hc]
      exact processAfterCacheMiss_inv f st cid et t hInv
    | some g =>
      simp only [processOutageEvent, getCachedGroup, hr', Bool.false_eq_true,
        if_false, hc]
      by_cases hir : isEventInTimeRange g t = true
      · rw [if_pos hir]
        have hkg := hInv.2 (generateCacheKey cid et) g hc
        have hDom : ∀ k2 g2, st.cache k2 = some g2 → idKey g2.id = idKey g.id →
            g2.end_time ≤ g.end_time := by
          intro k2 g2 hk2 hid
          obtain ⟨hkey2, hs2⟩ := hInv.2 k2 g2 hk2
          obtain ⟨_, r2, hm2, hid2, hcid2, het2, _, _⟩ := hs2
          obtain ⟨_, rg, hmg, hidg, hcidg, hetg, _, _⟩ := hkg.2
          have hr2g : r2 = rg := dbwf_unique hInv.1 r2 hm2 rg hmg (by rw [hid2, hid, hidg])
          have hc2 : g2.controller_id = g.controller_id := by
            rw [← hcid2, hr2g, hcidg]
          have he2 : g2.event_type = g.event_type := by
            rw [← het2, hr2g, hetg]
          have hkk : k2 = generateCacheKey cid et := by
            rw [hkey2, hc2, he2, ← hkg.1]
          rw [hkk, hc] at hk2
          injection hk2 with hk2
          rw [← hk2]
        have h := addEventToGroup_inv f st g t hInv hkg.2 hDom
        rcases ha : addEventToGroup f st g t with ⟨res, st1⟩
        rw [ha] at h
        cases res <;> exact h
      · rw [if_neg hir]
        exact processAfterCacheMiss_inv f st cid et t hInv

/-! ### Claims -/

/-- Claim C4: the cache-probe admission test accepts an event at time t into
a group with bounds [s, e] iff s - W <= t <= e + W with W = 60 minutes (a
symmetric gap tolerance), and the store probe returns, among groups with
matching controllerId and eventType whose window expanded by the same W
contains t, one with the maximal endTime — and absent exactly when there is
none.  (Times compared in milliseconds, with t a unix-seconds timestamp.) -/
theorem c4_merge_window_and_store_probe :
    (∀ (g : GroupObj) (t : Int),
      isEventInTimeRange g t = true ↔
        g.start_time - sixtyMinutesInMs ≤ t * 1000 ∧
        t * 1000 ≤ g.end_time + sixtyMinutesInMs) ∧
    (∀ (groups : List GroupRow) (cid et : String) (t : Int),
      (∀ r, findByControllerAndEventType groups cid et t = some r →
        r ∈ groups ∧ r.controller_id = cid ∧ r.event_type = et ∧
        r.start_time - sixtyMinutesInMs ≤ t * 1000 ∧
        t * 1000 ≤ r.end_time + sixtyMinutesInMs ∧
        ∀ x ∈ groups, x.controller_id = cid → x.event_type = et →
          x.start_time - sixtyMinutesInMs ≤ t * 1000 →
          t * 1000 ≤ x.end_time + sixtyMinutesInMs →
          x.end_time ≤ r.end_time) ∧
      (findByControllerAndEventType groups cid et t = none ↔
        ∀ x ∈ groups, ¬(x.controller_id = cid ∧ x.event_type = et ∧
          x.start_time - sixtyMinutesInMs ≤ t * 1000 ∧
          t * 1000 ≤ x.end_time + sixtyMinutesInMs))) := by
  constructor
  · intro g t
    simp only [isEventInTimeRange, Bool.and_eq_true, decide_eq_true_eq]
  · intro groups cid et t
    constructor
    · intro r h
      have hmem := pickLatestEnd_mem h
      have hmax := pickLatestEnd_max h
      have h1 := List.mem_filter.mp hmem
      have h2 := rowMatchesProbe_iff.mp h1.2
      refine ⟨h1.1, h2.1, h2.2.1, h2.2.2.1, h2.2.2.2, ?_⟩
      intro x hx hc he hs hw
      exact hmax x (List.mem_filter.mpr ⟨hx, rowMatchesProbe_iff.mpr ⟨hc, he, hs, hw⟩⟩)
    · rw [findByControllerAndEventType, pickLatestEnd_eq_none, List.filter_eq_nil_iff]
      constructor
      · intro h x hx hprop
        exact h x hx (rowMatchesProbe_iff.mpr hprop)
      · intro h x hx hb
        exact h x hx (rowMatchesProbe_iff.mp hb)

/-- Witness for C4 at a concrete group and a single-row store. -/
theorem c4_merge_window_and_store_probe_witness :
    isEventInTimeRange ⟨.num 1, "led_outage", "CTRL1", 1756665796000, 1756665796000,
      none, none⟩ (1756665796 + 1800) = true ∧
    (⟨1, "led_outage", "CTRL1", 1756665796000, 1756665796000, 0, 0⟩ : GroupRow).controller_id
      = "CTRL1" := by
  refine ⟨(c4_merge_window_and_store_probe.1 _ _).mpr (by decide), ?_⟩
  have h := (c4_merge_window_and_store_probe.2
      [⟨1, "led_outage", "CTRL1", 1756665796000, 1756665796000, 0, 0⟩]
      "CTRL1" "led_outage" (1756665796 + 1800)).1
      ⟨1, "led_outage", "CTRL1", 1756665796000, 1756665796000, 0, 0⟩ (by decide)
  exact h.2.1

/-- Claim C5: `processOutageEvent` follows the strict order cache probe,
store probe, create, short-circuiting on the first match with the
corresponding action label; the create path makes a group with
`startTime = endTime = timestamp` together with exactly one item, caches it
only after the durable write (a failed create transaction leaves every
state untouched), and returns the new group's id; and Scenario A (empty
cache and store, timestamp 1756665796) yields `created_new_group`. -/
theorem c5_probe_order_and_create :
    (∀ (f : Faults) (st : SysState) (cid et : String) (t : Int) (g : GroupObj)
        (u : MergeUpdated) (st1 : SysState), f.cacheReadFails = false →
      st.cache (generateCacheKey cid et) = some g →
      isEventInTimeRange g t = true →
      addEventToGroup f st g t = (.ok u, st1) →
      processOutageEvent f st cid et t = (.ok ⟨true, "added_to_cached_group", g.id⟩, st1)) ∧
    (∀ (f : Faults) (st : SysState) (cid et : String) (t : Int) (r : GroupRow)
        (u : MergeUpdated) (st1 : SysState), f.cacheReadFails = false →
      (st.cache (generateCacheKey cid et) = none ∨
        ∃ g0, st.cache (generateCacheKey cid et) = some g0 ∧ isEventInTimeRange g0 t = false) →
      findByControllerAndEventType st.db.groups cid et t = some r →
      addEventToGroup f st (rowToObj r) t = (.ok u, st1) →
      processOutageEvent f st cid et t = (.ok ⟨true, "added_to_db_group", .num r.id⟩, st1)) ∧
    (∀ (f : Faults) (st : SysState) (cid et : String) (t : Int) (g : GroupObj)
        (st1 : SysState), f.cacheReadFails = false →
      (st.cache (generateCacheKey cid et) = none ∨
        ∃ g0, st.cache (generateCacheKey cid et) = some g0 ∧ isEventInTimeRange g0 t = false) →
      findByControllerAndEventType st.db.groups cid et t = none →
      createNewGroup f st cid et t = (.ok g, st1) →
      processOutageEvent f st cid et t = (.ok ⟨true, "created_new_group", g.id⟩, st1) ∧
      g.start_time = t * 1000 ∧ g.end_time = t * 1000 ∧ g.id = .num st.db.nextGroupId ∧
      st1.db.groups = st.db.groups ++
        [⟨st.db.nextGroupId, et, cid, t * 1000, t * 1000, 0, 0⟩] ∧
      st1.db.items = st.db.items ++ [⟨st.db.nextItemId, st.db.nextGroupId, t * 1000⟩] ∧
      st1.cache = setCachedGroup st.cache cid et g) ∧
    (∀ (f : Faults) (st : SysState) (cid et : String) (t : Int) (e : JsError),
      createTx f st.db cid et t = .error e →
      createNewGroup f st cid et t = (.error e, st)) ∧
    ((processOutageEvent noFaults emptyState ("AOT1D-25090001") "led_outage" 1756665796).1
        = .ok ⟨true, "created_new_group", .num 1⟩ ∧
     (processOutageEvent noFaults emptyState ("AOT1D-25090001") "led_outage" 1756665796).2.db
        = { groups := [⟨1, "led_outage", "AOT1D-25090001", 1756665796000, 1756665796000, 0, 0⟩]
            items := [⟨1, 1, 1756665796000⟩], nextGroupId := 2, nextItemId := 2 } ∧
     (processOutageEvent noFaults emptyState ("AOT1D-25090001") "led_outage" 1756665796).2.cache
        (generateCacheKey ("AOT1D-25090001") "led_outage")
        = some ⟨.strOfNum 1, "led_outage", "AOT1D-25090001", 1756665796000,
            1756665796000, none, none⟩) := by
  refine ⟨?_, ?_, ?_, ?_, by decide, by decide, by decide⟩
  · intro f st cid et t g u st1 hf hc hr hm
    exact processOutageEvent_cachedHit hf hc hr hm
  · intro f st cid et t r u st1 hf hc hd hm
    rw [processOutageEvent_cacheMiss hf hc]
    exact processAfterCacheMiss_db hd hm
  · intro f st cid et t g st1 hf hc hd hg
    obtain ⟨hct, hw, hcache⟩ := createNewGroup_ok hg
    obtain ⟨hgv, hdb⟩ := createTx_ok hct
    refine ⟨?_, ?_, ?_, ?_, ?_, ?_, hcache⟩
    · rw [processOutageEvent_cacheMiss hf hc]
      exact processAfterCacheMiss_create hd hg
    · rw [hgv]
    · rw [hgv]
    · rw [hgv]
    · rw [hdb]
      rfl
    · rw [hdb]
      rfl
  · intro f st cid et t e h
    simp [createNewGroup, h]

/-- Witness for C5: the db-merge conjunct at a one-row store and the create
conjunct at the empty store, at concrete inputs. -/
theorem c5_probe_order_and_create_witness :
    processOutageEvent noFaults stOneGroup ("CTRL1") "led_outage" 1756666396
      = (.ok ⟨true, "added_to_db_group", .num 1⟩,
         (addEventToGroup noFaults stOneGroup
           (rowToObj ⟨1, "led_outage", "CTRL1", 1756665796000, 1756665796000, 0, 0⟩)
           1756666396).2) ∧
    processOutageEvent noFaults emptyState ("CTRL1") "led_outage" 1756665796
      = (.ok ⟨true, "created_new_group",
          .num 1⟩,
         (createNewGroup noFaults emptyState ("CTRL1") "led_outage" 1756665796).2) := by
  constructor
  · exact c5_probe_order_and_create.2.1 noFaults stOneGroup ("CTRL1") "led_outage" 1756666396
      ⟨1, "led_outage", "CTRL1", 1756665796000, 1756665796000, 0, 0⟩
      (.endOnly (.num 1) 1756666396000) _
      rfl (Or.inl rfl) (by decide) (Prod.ext_iff.mpr ⟨by decide, rfl⟩)
  · exact (c5_probe_order_and_create.2.2.1 noFaults emptyState ("CTRL1") "led_outage" 1756665796
      ⟨.num 1, "led_outage", "CTRL1", 1756665796000, 1756665796000, none, none⟩ _
      rfl (Or.inl rfl) (by decide) (Prod.ext_iff.mpr ⟨by decide, rfl⟩)).1

/-- Claim C6: a failure in any step of the atomic store write aborts the
whole operation with the error propagated and no state change (store rolled
back, cache untouched) — for both `createNewGroup` and `addEventToGroup`,
including Scenario E (item insert succeeds, boundary update fails); a cache
write failing after the store transaction committed propagates the error
but keeps the committed store state and does not touch the cache. -/
theorem c6_failure_semantics :
    (∀ (f : Faults) (st : SysState) (cid et : String) (t : Int),
      f.groupInsertFails = true →
      createNewGroup f st cid et t = (.error (.storeErr ("insert group failed")), st)) ∧
    (∀ (f : Faults) (st : SysState) (cid et : String) (t : Int),
      f.groupInsertFails = false → f.itemInsertFails = true →
      createNewGroup f st cid et t = (.error (.storeErr ("insert item failed")), st)) ∧
    (∀ (f : Faults) (st : SysState) (g : GroupObj) (t : Int),
      f.itemInsertFails = true →
      addEventToGroup f st g t = (.error (.storeErr ("insert item failed")), st)) ∧
    (∀ (f : Faults) (st : SysState) (g : GroupObj) (t : Int),
      f.itemInsertFails = false → f.updateEndFails = true →
      (st.db.items.any fun i =>
        i.group_id == idKey g.id && i.occurrence_time == t * 1000) = false →
      ¬(t * 1000 < g.start_time) → g.end_time < t * 1000 →
      addEventToGroup f st g t = (.error (.storeErr ("update end_time failed")), st)) ∧
    (∀ (f : Faults) (st : SysState) (cid et : String) (t : Int) (g : GroupObj) (db1 : DB),
      f.cacheWriteFails = true → createTx f st.db cid et t = .ok (g, db1) →
      createNewGroup f st cid et t = (.error (.cacheErr ("redis setEx failed")),
        { db := db1, cache := st.cache })) ∧
    (∀ (f : Faults) (st : SysState) (g : GroupObj) (t : Int) (u : MergeUpdated) (db1 : DB),
      f.cacheWriteFails = true → mergeTx f st.db g t = .ok (u, db1) →
      addEventToGroup f st g t = (.error (.cacheErr ("redis setEx failed")),
        { db := db1, cache := st.cache })) := by
  refine ⟨?_, ?_, ?_, ?_, ?_, ?_⟩
  · intro f st cid et t h
    simp [createNewGroup, createTx, createGroupWithTx, h]
  · intro f st cid et t hg hi
    simp [createNewGroup, createTx, createGroupWithTx, createItemWithTx, hg, hi]
  · intro f st g t hi
    simp [addEventToGroup, mergeTx, createItemWithTx, hi]
  · intro f st g t hi hu hdup hs he
    simp [addEventToGroup, mergeTx, createItemWithTx, updateEndTimeWithTx,
      hi, hu, hdup, hs, he]
  · intro f st cid et t g db1 hw hct
    simp [createNewGroup, hct, setCachedGroupOp, hw]
  · intro f st g t u db1 hw hm
    simp [addEventToGroup, hm, setCachedGroupOp, hw]

/-- Witness for C6: Scenario E (boundary update fails, whole merge rolls
back) and a cache-write failure after a committed create, at concrete
inputs. -/
theorem c6_failure_semantics_witness :
    addEventToGroup updateEndFault stOneGroup
      (rowToObj ⟨1, "led_outage", "CTRL1", 1756665796000, 1756665796000, 0, 0⟩)
      1756666396 = (.error (.storeErr ("update end_time failed")), stOneGroup) ∧
    createNewGroup cacheWriteFault emptyState ("CTRL1") "led_outage" 1756665796
      = (.error (.cacheErr ("redis setEx failed")),
         { db := { groups := [⟨1, "led_outage", "CTRL1", 1756665796000, 1756665796000, 0, 0⟩]
                   items := [⟨1, 1, 1756665796000⟩], nextGroupId := 2, nextItemId := 2 }
           cache := emptyState.cache }) := by
  constructor
  · exact c6_failure_semantics.2.2.2.1 updateEndFault stOneGroup
      (rowToObj ⟨1, "led_outage", "CTRL1", 1756665796000, 1756665796000, 0, 0⟩)
      1756666396 rfl rfl (by decide) (by decide) (by decide)
  · exact c6_failure_semantics.2.2.2.2.1 cacheWriteFault emptyState ("CTRL1") "led_outage"
      1756665796 ⟨.num 1, "led_outage", "CTRL1", 1756665796000, 1756665796000, none, none⟩
      { groups := [⟨1, "led_outage", "CTRL1", 1756665796000, 1756665796000, 0, 0⟩]
        items := [⟨1, 1, 1756665796000⟩], nextGroupId := 2, nextItemId := 2 }
      rfl (by decide)

/-- Claim C1 is a code bug: merging an event earlier than the group's
`startTime` does not extend `startTime` — it raises a TypeError, because
`dataProcess.service.js` line 147 calls
`outageGroupRepo.updateStartTimeWithTx`, which
`outageGroup.repository.js` does not define or export.  At the concrete
failing input (store group `[1756665796, 1756665796]`, event at
`1756665196`, i.e. 600 s earlier and well inside the 60-minute tolerance)
the engine returns the TypeError and the transaction rolls back, leaving
the store unchanged, where the claim requires a successful merge with
`startTime` extended to the event time.  The other two boundary cases of
the claim do behave as stated (see the C7 theorem). -/
theorem c1_update_start_time_is_missing :
    (processOutageEvent noFaults stOneGroup ("CTRL1") "led_outage" 1756665196).1
      = .error (.typeError ("outageGroupRepo.updateStartTimeWithTx is not a function")) ∧
    (processOutageEvent noFaults stOneGroup ("CTRL1") "led_outage" 1756665196).2 = stOneGroup ∧
    isEventInTimeRange (rowToObj ⟨1, "led_outage", "CTRL1", 1756665796000,
      1756665796000, 0, 0⟩) 1756665196 = true :=
  ⟨by decide, rfl, by decide⟩

/-- Claim C2 is a code bug: the merge in `dataProcess.service.js` lines
129-157 never re-reads the extremal occurrence time from the store — it
compares the input timestamp against the snapshot bounds and writes the
input timestamp as the new `end_time`, and it contains no
`findLastItemByGroupId` call and no fatal internal-consistency error (the
repository's own tests expect `findLastItemByGroupIdWithTx` to be called
and expect the error `Failed to find last item after creation`).  Concrete
divergence: the store holds a group `[1756665696, 1756665796]` whose items
already contain an occurrence at `1756666696`; merging an event at
`1756666396` succeeds and sets the group's `end_time` to `1756666396000`
ms, while the store-reported extremal occurrence
(`findLastItemByGroupId`, embedded from the source) is `1756666696000` ms
— the final boundary is not the store-reported extremal value. -/
theorem c2_no_store_reread_on_merge :
    (processOutageEvent noFaults stLateItem ("CTRL1") "led_outage" 1756666396).1
      = .ok ⟨true, "added_to_db_group", .num 1⟩ ∧
    (processOutageEvent noFaults stLateItem ("CTRL1") "led_outage" 1756666396).2.db.groups
      = [⟨1, "led_outage", "CTRL1", 1756665696000, 1756666396000, 0, 0⟩] ∧
    findLastItemByGroupId
      (processOutageEvent noFaults stLateItem ("CTRL1") "led_outage" 1756666396).2.db.items 1
      = some ⟨1, 1, 1756666696000⟩ ∧
    (1756666396000 : Int) ≠ 1756666696000 := by
  refine ⟨by decide, by decide, by decide, by decide⟩

/-- Claim C3 as stated is false: a failed cache read is not treated as a
cache miss.  `processOutageEvent` (line 180) awaits `getCachedGroup` with
no try/catch, so the read error propagates to the caller; at the concrete
input below the failed-read run errors while the cache-miss run returns
`created_new_group` — not the same result. -/
theorem c3_cache_read_failure_propagates :
    (processOutageEvent cacheReadFault emptyState ("CTRL1") "led_outage" 1756665796).1
      = .error (.cacheErr ("redis get failed")) ∧
    (processOutageEvent cacheReadFault emptyState ("CTRL1") "led_outage" 1756665796).2
      = emptyState ∧
    (processOutageEvent noFaults emptyState ("CTRL1") "led_outage" 1756665796).1
      = .ok ⟨true, "created_new_group", .num 1⟩ :=
  ⟨by decide, rfl, by decide⟩

/-- Claim C9 as stated is false: the cache entry written after a successful
merge is not the pre-update snapshot with only boundary fields replaced —
`setCachedGroup` also replaces the snapshot's `id` by `id.toString()`.  At
the concrete input below (store-probe merge, snapshot `id` the number 1)
the written entry's `id` is the string rendering of 1, not the snapshot's
numeric id. -/
theorem c9_counterexample_id_is_stringified :
    (processOutageEvent noFaults stOneGroup ("CTRL1") "led_outage" 1756666396).2.cache
      (generateCacheKey ("CTRL1") "led_outage")
      = some ⟨.strOfNum 1, "led_outage", "CTRL1", 1756665796000, 1756666396000,
          some 0, some 0⟩ ∧
    (rowToObj ⟨1, "led_outage", "CTRL1", 1756665796000, 1756665796000, 0, 0⟩).id
      = .num 1 ∧
    JsVal.strOfNum 1 ≠ JsVal.num 1 :=
  ⟨by decide, by decide, by decide⟩

/-- Claim C9 amended: after every successful merge the cache entry written
for the group's (controllerId, eventType) equals the pre-update snapshot
with the extended `end_time` replaced (kept when the event fell inside the
window) and with `id` serialized to its string form — every other field,
including the non-extended `start_time` boundary, is taken unchanged from
the snapshot. -/
theorem c9_amended_cache_refresh (f : Faults) (st : SysState) (g : GroupObj)
    (t : Int) (u : MergeUpdated) (st1 : SysState)
    (h : addEventToGroup f st g t = (.ok u, st1)) :
    st1.cache (generateCacheKey g.controller_id g.event_type)
      = some { g with
          id := g.id.toStr
          end_time := if g.end_time < t * 1000 then t * 1000 else g.end_time } := by
  obtain ⟨hm, hw, hc⟩ := addEventToGroup_ok h
  obtain ⟨hs, hcase | hcase⟩ := mergeTx_ok hm
  · obtain ⟨hle, hu, _⟩ := hcase
    subst hu
    rw [hc, if_neg (not_lt.mpr hle)]
    simp [setCachedGroup, mergeGroupToCache]
  · obtain ⟨hlt, hu, _⟩ := hcase
    subst hu
    rw [hc, if_pos hlt]
    simp [setCachedGroup, mergeGroupToCache]

/-- Witness for the amended C9 at a concrete store-probe merge. -/
theorem c9_amended_cache_refresh_witness :
    (addEventToGroup noFaults stOneGroup
      (rowToObj ⟨1, "led_outage", "CTRL1", 1756665796000, 1756665796000, 0, 0⟩)
      1756666396).2.cache
      (generateCacheKey
        (rowToObj ⟨1, "led_outage", "CTRL1", 1756665796000, 1756665796000, 0, 0⟩).controller_id
        (rowToObj ⟨1, "led_outage", "CTRL1", 1756665796000, 1756665796000, 0, 0⟩).event_type)
      = some { rowToObj ⟨1, "led_outage", "CTRL1", 1756665796000, 1756665796000, 0, 0⟩ with
          id := (rowToObj ⟨1, "led_outage", "CTRL1", 1756665796000, 1756665796000,
            0, 0⟩).id.toStr
          end_time :=
            if (rowToObj ⟨1, "led_outage", "CTRL1", 1756665796000, 1756665796000,
                 0, 0⟩).end_time < 1756666396 * 1000 then 1756666396 * 1000
            else (rowToObj ⟨1, "led_outage", "CTRL1", 1756665796000, 1756665796000,
              0, 0⟩).end_time } :=
  c9_amended_cache_refresh noFaults stOneGroup
    (rowToObj ⟨1, "led_outage", "CTRL1", 1756665796000, 1756665796000, 0, 0⟩)
    1756666396 (.endOnly (.num 1) 1756666396000)
    (addEventToGroup noFaults stOneGroup
      (rowToObj ⟨1, "led_outage", "CTRL1", 1756665796000, 1756665796000, 0, 0⟩)
      1756666396).2
    (Prod.ext_iff.mpr ⟨by decide, rfl⟩)

/-- Claim C10 (implicit): `setCachedGroup` always writes the cached group's
id as a string, so a result produced through `added_to_cached_group`
carries the cache snapshot's string id, while `added_to_db_group` and
`created_new_group` carry the store's numeric id — the type of the
returned `group_id` differs by path. -/
theorem c10_group_id_type_depends_on_path :
    (∀ (c : Cache) (cid et : String) (g : GroupObj),
      setCachedGroup c cid et g (generateCacheKey cid et)
        = some { g with id := g.id.toStr }) ∧
    (∀ v : JsVal, v.toStr.isStr = true) ∧
    (∀ (f : Faults) (st : SysState) (cid et : String) (t : Int) (g : GroupObj)
        (u : MergeUpdated) (st1 : SysState), f.cacheReadFails = false →
      st.cache (generateCacheKey cid et) = some g →
      isEventInTimeRange g t = true →
      addEventToGroup f st g t = (.ok u, st1) →
      (processOutageEvent f st cid et t).1
        = .ok ⟨true, "added_to_cached_group", g.id⟩) ∧
    (∀ (f : Faults) (st : SysState) (cid et : String) (t : Int) (r : GroupRow)
        (u : MergeUpdated) (st1 : SysState), f.cacheReadFails = false →
      (st.cache (generateCacheKey cid et) = none ∨
        ∃ g0, st.cache (generateCacheKey cid et) = some g0 ∧
          isEventInTimeRange g0 t = false) →
      findByControllerAndEventType st.db.groups cid et t = some r →
      addEventToGroup f st (rowToObj r) t = (.ok u, st1) →
      (processOutageEvent f st cid et t).1 = .ok ⟨true, "added_to_db_group", .num r.id⟩ ∧
      (JsVal.num r.id).isStr = false) ∧
    (∀ (f : Faults) (st : SysState) (cid et : String) (t : Int) (g : GroupObj)
        (st1 : SysState), f.cacheReadFails = false →
      (st.cache (generateCacheKey cid et) = none ∨
        ∃ g0, st.cache (generateCacheKey cid et) = some g0 ∧
          isEventInTimeRange g0 t = false) →
      findByControllerAndEventType st.db.groups cid et t = none →
      createNewGroup f st cid et t = (.ok g, st1) →
      (processOutageEvent f st cid et t).1
        = .ok ⟨true, "created_new_group", .num st.db.nextGroupId⟩ ∧
      (JsVal.num st.db.nextGroupId).isStr = false) := by
  refine ⟨?_, ?_, ?_, ?_, ?_⟩
  · intro c cid et g
    simp [setCachedGroup]
  · intro v
    cases v <;> rfl
  · intro f st cid et t g u st1 hf hc hr hm
    rw [processOutageEvent_cachedHit hf hc hr hm]
  · intro f st cid et t r u st1 hf hc hd hm
    rw [processOutageEvent_cacheMiss hf hc, processAfterCacheMiss_db hd hm]
    exact ⟨rfl, rfl⟩
  · intro f st cid et t g st1 hf hc hd hg
    obtain ⟨hct, _, _⟩ := createNewGroup_ok hg
    obtain ⟨hgv, _⟩ := createTx_ok hct
    rw [processOutageEvent_cacheMiss hf hc, processAfterCacheMiss_create hd hg, hgv]
    exact ⟨rfl, rfl⟩

/-- Witness for C10: processing an event into an empty system and then a
second event 600 s later — the first result's `group_id` is the numeric
store id, the second (served from the cache written by the first) carries
the string id. -/
theorem c10_group_id_type_depends_on_path_witness :
    (processOutageEvent noFaults emptyState ("CTRL1") "led_outage" 1756665796).1
      = .ok ⟨true, "created_new_group", .num 1⟩ ∧
    (JsVal.num 1).isStr = false ∧
    (processOutageEvent noFaults
        (processOutageEvent noFaults emptyState ("CTRL1") "led_outage" 1756665796).2
        "CTRL1" "led_outage" 1756666396).1
      = .ok ⟨true, "added_to_cached_group", .strOfNum 1⟩ ∧
    (JsVal.strOfNum 1).isStr = true := by
  refine ⟨?_, rfl, ?_, c10_group_id_type_depends_on_path.2.1 (.num 1)⟩
  · exact (c10_group_id_type_depends_on_path.2.2.2.2 noFaults emptyState ("CTRL1")
      "led_outage" 1756665796
      ⟨.num 1, "led_outage", "CTRL1", 1756665796000, 1756665796000, none, none⟩ _
      rfl (Or.inl rfl) (by decide) (Prod.ext_iff.mpr ⟨by decide, rfl⟩)).1
  · exact c10_group_id_type_depends_on_path.2.2.1 noFaults
      (processOutageEvent noFaults emptyState ("CTRL1") "led_outage" 1756665796).2
      "CTRL1" "led_outage" 1756666396
      ⟨.strOfNum 1, "led_outage", "CTRL1", 1756665796000, 1756665796000, none, none⟩
      (.endOnly (.strOfNum 1) 1756666396000) _
      rfl (by decide) (by decide) (Prod.ext_iff.mpr ⟨by decide, rfl⟩)

theorem queryWhere_iff {ot : String} {cido : Option String} {qs qe : Int} {row : GroupRow} :
    queryWhere ot cido qs qe row = true ↔
      row.event_type = ot ∧ row.start_time ≤ qe * 1000 ∧ qs * 1000 ≤ row.end_time ∧
      ∀ c, cido = some c → row.controller_id = c := by
  cases cido with
  | none =>
    simp [queryWhere]
    tauto
  | some c =>
    simp [queryWhere]
    tauto

/-- Claim C8: `queryOutageGroups` returns exactly the groups of the requested
eventType (and controllerId when given) whose window overlaps the requested
range (`group.startTime <= endTime` and `group.endTime >= startTime`),
ordered by startTime descending, paginated by offset (default 0) and limit
(default 20) as a slice of that single ordering, together with the
unpaginated total count for the same filter; each group serializes
`start_time`/`end_time` as decimal-string unix-second timestamps and `id`
as a plain integer. -/
theorem c8_query_overlap_order_pagination :
    ∀ (groups : List GroupRow) (p : QueryParams),
      (queryOutageGroups groups p).data
        = (((sortByStartDesc (groups.filter
              (queryWhere p.outageType (normControllerId p.controllerId)
                p.startTime p.endTime))).drop (p.offset.getD 0)).take
            (p.limit.getD 20)).map toQueryItemOut ∧
      (∀ it ∈ (queryOutageGroups groups p).data, ∃ row ∈ groups,
        row.event_type = p.outageType ∧
        row.start_time ≤ p.endTime * 1000 ∧ p.startTime * 1000 ≤ row.end_time ∧
        (∀ c, normControllerId p.controllerId = some c → row.controller_id = c) ∧
        it = toQueryItemOut row) ∧
      ((sortByStartDesc (groups.filter
          (queryWhere p.outageType (normControllerId p.controllerId)
            p.startTime p.endTime))).Pairwise fun a b => b.start_time ≤ a.start_time) ∧
      (queryOutageGroups groups p).pagination
        = { total := (groups.filter
              (queryWhere p.outageType (normControllerId p.controllerId)
                p.startTime p.endTime)).length
            offset := p.offset.getD 0
            limit := p.limit.getD 20 } ∧
      (∀ row : GroupRow, toQueryItemOut row
        = { id := row.id, outage_type := row.event_type, controller_id := row.controller_id
            start_time := toString (Int.fdiv row.start_time 1000)
            end_time := toString (Int.fdiv row.end_time 1000) }) := by
  intro groups p
  refine ⟨rfl, ?_, ?_, rfl, fun row => rfl⟩
  · intro it hit
    obtain ⟨row, hrow, heq⟩ := List.mem_map.mp hit
    have h1 : row ∈ (sortByStartDesc (groups.filter
        (queryWhere p.outageType (normControllerId p.controllerId)
          p.startTime p.endTime))).drop (p.offset.getD 0) :=
      List.mem_of_mem_take hrow
    have h2 : row ∈ sortByStartDesc (groups.filter
        (queryWhere p.outageType (normControllerId p.controllerId)
          p.startTime p.endTime)) :=
      List.mem_of_mem_drop h1
    have h3 : row ∈ groups.filter
        (queryWhere p.outageType (normControllerId p.controllerId)
          p.startTime p.endTime) :=
      (List.perm_insertionSort _ _).mem_iff.mp h2
    obtain ⟨h4, h5⟩ := List.mem_filter.mp h3
    obtain ⟨hq1, hq2, hq3, hq4⟩ := queryWhere_iff.mp h5
    exact ⟨row, h4, hq1, hq2, hq3, hq4, heq.symm⟩
  · haveI : IsTotal GroupRow (fun a b => b.start_time ≤ a.start_time) :=
      ⟨fun a b => le_total b.start_time a.start_time⟩
    haveI : IsTrans GroupRow (fun a b => b.start_time ≤ a.start_time) :=
      ⟨fun _ _ _ hab hbc => le_trans hbc hab⟩
    exact List.sorted_insertionSort _ _

/-- Witness for C8 at a three-row store: one row filtered out by event type,
the two matching rows returned in descending `start_time` order with the
total count 2, and the membership conjunct discharged at the first returned
item. -/
theorem c8_query_overlap_order_pagination_witness :
    (queryOutageGroups
        [⟨1, "led_outage", "CTRL1", 1756661000000, 1756662000000, 0, 0⟩,
         ⟨2, "panel_outage", "CTRL1", 1756661000000, 1756662000000, 0, 0⟩,
         ⟨3, "led_outage", "CTRL1", 1756663000000, 1756664000000, 0, 0⟩]
        { outageType := "led_outage", controllerId := some ("CTRL1")
          startTime := 1756660000, endTime := 1756670000 }).pagination
      = { total := 2, offset := 0, limit := 20 } ∧
    ∃ row ∈ [⟨1, "led_outage", "CTRL1", 1756661000000, 1756662000000, 0, 0⟩,
         (⟨2, "panel_outage", "CTRL1", 1756661000000, 1756662000000, 0, 0⟩ : GroupRow),
         ⟨3, "led_outage", "CTRL1", 1756663000000, 1756664000000, 0, 0⟩],
      row.event_type = "led_outage" ∧
      row.start_time ≤ (1756670000 : Int) * 1000 ∧
      (1756660000 : Int) * 1000 ≤ row.end_time ∧
      (∀ c, normControllerId (some ("CTRL1")) = some c → row.controller_id = c) ∧
      toQueryItemOut ⟨3, "led_outage", "CTRL1", 1756663000000, 1756664000000, 0, 0⟩
        = toQueryItemOut row := by
  constructor
  · rw [(c8_query_overlap_order_pagination
      [⟨1, "led_outage", "CTRL1", 1756661000000, 1756662000000, 0, 0⟩,
       ⟨2, "panel_outage", "CTRL1", 1756661000000, 1756662000000, 0, 0⟩,
       ⟨3, "led_outage", "CTRL1", 1756663000000, 1756664000000, 0, 0⟩]
      { outageType := "led_outage", controllerId := some ("CTRL1")
        startTime := 1756660000, endTime := 1756670000 }).2.2.2.1]
    decide
  · exact (c8_query_overlap_order_pagination
      [⟨1, "led_outage", "CTRL1", 1756661000000, 1756662000000, 0, 0⟩,
       ⟨2, "panel_outage", "CTRL1", 1756661000000, 1756662000000, 0, 0⟩,
       ⟨3, "led_outage", "CTRL1", 1756663000000, 1756664000000, 0, 0⟩]
      { outageType := "led_outage", controllerId := some ("CTRL1")
        startTime := 1756660000, endTime := 1756670000 }).2.1
      (toQueryItemOut ⟨3, "led_outage", "CTRL1", 1756663000000, 1756664000000, 0, 0⟩)
      (by decide)

/-- Claim C7: `startTime <= endTime` holds for every group after every
operation.  The empty system satisfies the invariant, `processOutageEvent`
preserves it from any state satisfying it (so it holds in every reachable
state of the group store), an invariant state has ordered bounds on every
stored group, creation yields `startTime = endTime = timestamp`, and every
merge transaction rewrites no row's `startTime` and touches at most the
`endTime` of rows carrying the merged group's id, setting it to the event
time only when the event lies strictly beyond the merged snapshot's
`endTime`. -/
theorem c7_start_le_end_invariant :
    Inv emptyState ∧
    (∀ (f : Faults) (st : SysState) (cid et : String) (t : Int),
      Inv st → Inv (processOutageEvent f st cid et t).2) ∧
    (∀ st : SysState, Inv st → ∀ r ∈ st.db.groups, r.start_time ≤ r.end_time) ∧
    (∀ (f : Faults) (st : SysState) (cid et : String) (t : Int) (g : GroupObj)
        (st1 : SysState), createNewGroup f st cid et t = (.ok g, st1) →
      g.start_time = t * 1000 ∧ g.end_time = t * 1000) ∧
    (∀ (f : Faults) (db : DB) (g : GroupObj) (t : Int) (u : MergeUpdated) (db1 : DB),
      mergeTx f db g t = .ok (u, db1) →
      ∀ r1 ∈ db1.groups, ∃ r0 ∈ db.groups, r1.id = r0.id ∧
        r1.start_time = r0.start_time ∧
        (r1 = r0 ∨ (r1.end_time = t * 1000 ∧ g.end_time < t * 1000))) := by
  refine ⟨?_, ?_, ?_, ?_, ?_⟩
  · refine ⟨⟨?_, ?_⟩, ?_⟩
    · intro r hr
      simp [emptyState] at hr
    · simp [emptyState]
    · intro k g h
      exact Option.noConfusion h
  · intro f st cid et t h
    exact processOutageEvent_inv f st cid et t h
  · intro st h r hr
    exact (h.1.1 r hr).1
  · intro f st cid et t g st1 h
    obtain ⟨hct, _, _⟩ := createNewGroup_ok h
    obtain ⟨hg, _⟩ := createTx_ok hct
    rw [hg]
    exact ⟨rfl, rfl⟩
  · intro f db g t u db1 h r1 hr1
    obtain ⟨hs, hcase⟩ := mergeTx_ok h
    rcases hcase with ⟨hle, hu, hdb⟩ | ⟨hlt, hu, hdb⟩
    · rw [hdb] at hr1
      exact ⟨r1, hr1, rfl, rfl, Or.inl rfl⟩
    · rw [hdb] at hr1
      obtain ⟨r0, hr0, hupd⟩ := List.mem_map.mp hr1
      by_cases hid : r0.id = idKey g.id
      · rw [updEnd_of_eq hid] at hupd
        refine ⟨r0, hr0, ?_, ?_, Or.inr ⟨?_, hlt⟩⟩ <;> rw [← hupd]
      · rw [updEnd_of_ne hid] at hupd
        exact ⟨r0, hr0, by rw [hupd], by rw [hupd], Or.inl hupd.symm⟩

/-- Witness for C7: the invariant holds after processing a concrete event
from the empty system. -/
theorem c7_start_le_end_invariant_witness :
    Inv (processOutageEvent noFaults emptyState ("CTRL1") "led_outage" 1756665796).2 :=
  c7_start_le_end_invariant.2.1 noFaults emptyState ("CTRL1") "led_outage" 1756665796
    c7_start_le_end_invariant.1

/-- Claim C3 amended: if reading the cache entry fails, `processOutageEvent`
propagates the cache-read error to the caller without probing the store,
creating anything, or touching any state. -/
theorem c3_amended_cache_read_failure (f : Faults) (st : SysState)
    (cid et : String) (t : Int) (h : f.cacheReadFails = true) :
    processOutageEvent f st cid et t = (.error (.cacheErr ("redis get failed")), st) := by
  simp [processOutageEvent, getCachedGroup, h]

/-- Witness for the amended C3 at a concrete fault record and state. -/
theorem c3_amended_cache_read_failure_witness :
    processOutageEvent cacheReadFault emptyState ("CTRL1") "led_outage" 1756665796
      = (.error (.cacheErr ("redis get failed")), emptyState) :=
  c3_amended_cache_read_failure cacheReadFault emptyState ("CTRL1") "led_outage" 1756665796 rfl

end Led
